import Mathlib

/-!
Verification of the modular game engine's core: components (`src/src/components.rs`),
the physics integration system (`src/src/systems.rs`), the fixed-timestep game loop
(`src/src/game_loop.rs`), and the collision systems of the two reference demos
(`src/demos/window_pong.rs`, `src/demos/breakout.rs`).

Real-valued `f32` quantities are modelled as exact rationals; where NaN/infinity
behaviour matters a separate `F32` type with the IEEE non-finite values is used.
`std::time::Duration` is modelled as its exact nanosecond count (a natural number).
-/

namespace Modular

/-! ### Components (src/src/components.rs) -/

/-- `Position` component: 2D world-space location. -/
structure Position where
  x : ℚ
  y : ℚ
deriving DecidableEq, Repr

/-- `Velocity` component: signed rate of change of `Position`. -/
structure Velocity where
  x : ℚ
  y : ℚ
deriving DecidableEq, Repr

/-- `Acceleration` component. -/
structure Acceleration where
  x : ℚ
  y : ℚ
deriving DecidableEq, Repr

/-- `Health` component (`components.rs` lines 124-150). -/
structure Health where
  current : ℚ
  maximum : ℚ
deriving DecidableEq, Repr

/-- `Health::new`: starts at full health. -/
def Health.new (maximum : ℚ) : Health :=
  { current := maximum, maximum := maximum }

/-- `Health::is_alive`: `self.current > 0.0`. -/
def Health.is_alive (h : Health) : Bool :=
  decide (h.current > 0)

/-- `Health::take_damage`: `self.current = (self.current - damage).max(0.0)`. -/
def Health.take_damage (h : Health) (damage : ℚ) : Health :=
  { h with current := max (h.current - damage) 0 }

/-- `Health::heal`: `self.current = (self.current + amount).min(self.maximum)`. -/
def Health.heal (h : Health) (amount : ℚ) : Health :=
  { h with current := min (h.current + amount) h.maximum }

/-! ### The physics system (src/src/systems.rs, `PhysicsSystem::run`)

An ECS world for the physics step: each entity optionally holds a `Position`,
`Velocity` and `Acceleration` component.  `PhysicsSystem::run` makes two passes:
the first joins `(Velocity, Acceleration)` and integrates acceleration into
velocity, the second joins `(Position, Velocity)` and integrates the (already
updated) velocity into position. -/

/-- One ECS entity as seen by `PhysicsSystem`. -/
structure Ent where
  pos : Option Position
  vel : Option Velocity
  acc : Option Acceleration
deriving DecidableEq, Repr

/-- First loop of `PhysicsSystem::run`: for every entity joining
`(&mut velocities, &accelerations)`, `velocity += acceleration * time.delta`. -/
def applyAccelPass (dt : ℚ) (e : Ent) : Ent :=
  match e.vel, e.acc with
  | some v, some a => { e with vel := some ⟨v.x + a.x * dt, v.y + a.y * dt⟩ }
  | _, _ => e

/-- Second loop of `PhysicsSystem::run`: for every entity joining
`(&mut positions, &velocities)`, `position += velocity * time.delta`. -/
def applyMovePass (dt : ℚ) (e : Ent) : Ent :=
  match e.pos, e.vel with
  | some p, some v => { e with pos := some ⟨p.x + v.x * dt, p.y + v.y * dt⟩ }
  | _, _ => e

/-- `PhysicsSystem::run` with `Time.delta = dt`: the acceleration pass over the
whole world, then the movement pass (which therefore reads updated velocities). -/
def PhysicsSystem.run (dt : ℚ) (w : List Ent) : List Ent :=
  (w.map (applyAccelPass dt)).map (applyMovePass dt)

/-! ### `f32` with non-finite values

`PhysicsSystem::run` performs raw `f32` arithmetic on `time.delta` with no
finiteness test anywhere in its body.  To reason about a NaN `dt` we model an
`f32` value as either a finite rational, an infinity, or NaN, with the IEEE 754
propagation rules for `+` and `*` (finite overflow and rounding are immaterial
here and not modelled). -/

inductive F32 where
  | fin : ℚ → F32
  | inf : F32
  | neginf : F32
  | nan : F32
deriving DecidableEq, Repr

/-- IEEE addition on the `F32` model. -/
def F32.add : F32 → F32 → F32
  | .nan, _ => .nan
  | _, .nan => .nan
  | .inf, .neginf => .nan
  | .neginf, .inf => .nan
  | .inf, _ => .inf
  | _, .inf => .inf
  | .neginf, _ => .neginf
  | _, .neginf => .neginf
  | .fin a, .fin b => .fin (a + b)

/-- IEEE multiplication on the `F32` model (`0 * ∞ = NaN`). -/
def F32.mul : F32 → F32 → F32
  | .nan, _ => .nan
  | _, .nan => .nan
  | .inf, .inf => .inf
  | .inf, .neginf => .neginf
  | .neginf, .inf => .neginf
  | .neginf, .neginf => .inf
  | .inf, .fin b => if 0 < b then .inf else if b < 0 then .neginf else .nan
  | .fin a, .inf => if 0 < a then .inf else if a < 0 then .neginf else .nan
  | .neginf, .fin b => if 0 < b then .neginf else if b < 0 then .inf else .nan
  | .fin a, .neginf => if 0 < a then .neginf else if a < 0 then .inf else .nan
  | .fin a, .fin b => .fin (a * b)

/-- An entity for the `F32`-valued physics world: components are coordinate pairs. -/
structure EntF where
  pos : Option (F32 × F32)
  vel : Option (F32 × F32)
  acc : Option (F32 × F32)
deriving DecidableEq, Repr

/-- The acceleration pass of `PhysicsSystem::run` over `F32` values. -/
def applyAccelPassF (dt : F32) (e : EntF) : EntF :=
  match e.vel, e.acc with
  | some v, some a => { e with vel := some (v.1.add (a.1.mul dt), v.2.add (a.2.mul dt)) }
  | _, _ => e

/-- The movement pass of `PhysicsSystem::run` over `F32` values. -/
def applyMovePassF (dt : F32) (e : EntF) : EntF :=
  match e.pos, e.vel with
  | some p, some v => { e with pos := some (p.1.add (v.1.mul dt), p.2.add (v.2.mul dt)) }
  | _, _ => e

/-- `PhysicsSystem::run` over `F32` values: exactly the two unconditional loops of
the source; there is no finiteness branch anywhere. -/
def PhysicsSystemF.run (dt : F32) (w : List EntF) : List EntF :=
  (w.map (applyAccelPassF dt)).map (applyMovePassF dt)

/-! ### The fixed-timestep driver (src/src/game_loop.rs, `GameLoop::run`)

`std::time::Duration` is exact integer nanoseconds, modelled as `ℕ`.  The loop
body measures a wall-clock delta, clamps it to `config.max_frame_time`, adds it
to the accumulator, and then repeatedly calls `update_fn(dt)` with
`dt = target_frame_time.as_secs_f32()` while the accumulator is at least
`target_frame_time`, subtracting the step and incrementing `frame_count` each
time.  The update function is modelled as `upd : ℚ → ℕ → σ → σ` receiving the
`dt` value, the current frame counter (through which a fixed per-tick input
sequence is indexed) and the simulation state. -/

namespace GameLoop

/-- Durations in integer nanoseconds. -/
abbrev Duration := ℕ

/-- `GameLoopConfig::default().max_frame_time = Duration::from_millis(100)`. -/
def maxFrameTimeDefault : Duration := 100000000

/-- `GameLoopConfig::default().target_fps = 60`. -/
def targetFpsDefault : ℕ := 60

/-- `Duration::from_secs(1) / target_fps` (integer nanosecond division). -/
def targetFrameTime (fps : ℕ) : Duration := 1000000000 / fps

/-- `target_frame_time.as_secs_f32()`: the step length in seconds. -/
def stepSecs (step : Duration) : ℚ := (step : ℚ) / 1000000000

/-- `if delta_time > self.config.max_frame_time { delta_time = max_frame_time }`. -/
def clampDelta (maxFrameTime d : Duration) : Duration :=
  if d > maxFrameTime then maxFrameTime else d

/-- `n` consecutive applications of the update function starting at frame
counter `c` : the reference semantics of `n` iterations of the inner loop. -/
def applyTicks {σ : Type _} (upd : ℕ → σ → σ) : ℕ → ℕ → σ → σ
  | _, 0, s => s
  | c, n + 1, s => applyTicks upd (c + 1) n (upd c s)

/-- The inner `while self.accumulator >= target_frame_time` loop: run one update,
subtract the step from the accumulator, increment the frame counter, repeat.
Returns the final accumulator, frame counter and state. -/
def drain {σ : Type _} (step : Duration) (upd : ℕ → σ → σ)
    (acc : Duration) (c : ℕ) (s : σ) : Duration × ℕ × σ :=
  if h : 0 < step ∧ step ≤ acc then
    drain step upd (acc - step) (c + 1) (upd c s)
  else
    (acc, c, s)
termination_by acc
decreasing_by exact Nat.sub_lt (Nat.lt_of_lt_of_le h.1 h.2) h.1

/-- One iteration of the outer `loop` in `GameLoop::run` for a measured
wall-clock delta `d`: clamp the delta, accumulate it, then drain whole fixed
steps, each update receiving `dt = stepSecs step`. -/
def frameStep {σ : Type _} (maxFrameTime step : Duration) (upd : ℚ → ℕ → σ → σ)
    (d : Duration) : Duration × ℕ × σ → Duration × ℕ × σ
  | (acc, c, s) => drain step (upd (stepSecs step)) (acc + clampDelta maxFrameTime d) c s

/-- `GameLoop::run` over a finite list of measured wall-clock deltas, one per
iteration of the outer loop, starting from accumulator/frame-counter/state. -/
def runFrames {σ : Type _} (maxFrameTime step : Duration) (upd : ℚ → ℕ → σ → σ)
    (ds : List Duration) (st : Duration × ℕ × σ) : Duration × ℕ × σ :=
  ds.foldl (fun st d => frameStep maxFrameTime step upd d st) st

end GameLoop

/-- Replace the element at index `n` of a list by `f` of it (used to model
`WriteStorage::get_mut` on the entity with that registry index). -/
def modifyAt {α : Type _} : ℕ → (α → α) → List α → List α
  | _, _, [] => []
  | 0, f, a :: l => f a :: l
  | n + 1, f, a :: l => a :: modifyAt n f l

/-! ### The pong demo collision step (src/demos/window_pong.rs)

`PongCollisionSystem::run` first snapshots the `(entity, Position)` pairs of all
balls and of all paddles, then for each snapshotted ball: bounces off the
top/bottom walls (negating `vel.y`, without touching the position), scans the
paddle snapshot and resolves at most the first overlapping paddle (reflection,
spin, speed cap), and finally checks the scoring edges, incrementing one side of
the `Score` resource and resetting every ball to the centre with a freshly
randomized velocity.

The `f32::sqrt` call is modelled by an explicit function parameter `sq`; the
`rand::random` calls are modelled by a stream `rng : ℕ → Bool × ℚ` of draws
(one boolean and one unit-interval fraction per ball reset) together with a
cursor `k` threaded through the run. -/

namespace WindowPong

def WINDOW_WIDTH : ℚ := 800
def WINDOW_HEIGHT : ℚ := 600
def PADDLE_WIDTH : ℚ := 20
def PADDLE_HEIGHT : ℚ := 100
def BALL_SIZE : ℚ := 15
def BALL_SPEED : ℚ := 400

/-- The `Score` resource (`player_score`, `ai_score` are `u32`). -/
structure Score where
  player_score : ℕ
  ai_score : ℕ
deriving DecidableEq, Repr

/-- A pong entity: position, velocity and the `Ball`/`Paddle` marker components. -/
structure PEnt where
  pos : ℚ × ℚ
  vel : ℚ × ℚ
  ball : Bool
  paddle : Bool
deriving DecidableEq, Repr

/-- The pong world: the entity list (index = registry order) plus the `Score`
resource. -/
structure PWorld where
  ents : List PEnt
  score : Score
deriving DecidableEq, Repr

/-- `check_paddle_ball_collision` (window_pong.rs lines 545-550): AABB overlap of
the ball square and the paddle rectangle. -/
def check_paddle_ball_collision (ball_pos paddle_pos : ℚ × ℚ) : Prop :=
  ball_pos.1 < paddle_pos.1 + PADDLE_WIDTH ∧
  ball_pos.1 + BALL_SIZE > paddle_pos.1 ∧
  ball_pos.2 < paddle_pos.2 + PADDLE_HEIGHT ∧
  ball_pos.2 + BALL_SIZE > paddle_pos.2

instance (bp pp : ℚ × ℚ) : Decidable (check_paddle_ball_collision bp pp) :=
  inferInstanceAs (Decidable (_ ∧ _ ∧ _ ∧ _))

/-- The body of the paddle-collision branch (window_pong.rs lines 513-528):
reflect `vel.x`, add spin to `vel.y` proportional to the contact offset from the
paddle centre, then cap the speed: if it exceeds `1.5 ×` nominal, rescale the
vector to `1.2 ×` nominal. -/
def paddleHitResponse (sq : ℚ → ℚ) (ball_pos paddle_pos : ℚ × ℚ) (v : ℚ × ℚ) : ℚ × ℚ :=
  let vx := -v.1
  let paddle_center := paddle_pos.2 + PADDLE_HEIGHT / 2
  let hit_pos := ball_pos.2 + BALL_SIZE / 2
  let spin_factor := (hit_pos - paddle_center) / (PADDLE_HEIGHT / 2)
  let vy := v.2 + spin_factor * 100
  let speed := sq (vx * vx + vy * vy)
  if speed > BALL_SPEED * 1.5 then
    (vx / speed * BALL_SPEED * 1.2, vy / speed * BALL_SPEED * 1.2)
  else
    (vx, vy)

/-- The `for (paddle_entity, paddle_pos) in &paddle_positions` loop with its
`break`: only the first overlapping paddle mutates the ball's velocity. -/
def resolvePaddles (sq : ℚ → ℚ) (ball_pos : ℚ × ℚ) : List (ℚ × ℚ) → (ℚ × ℚ) → (ℚ × ℚ)
  | [], v => v
  | pp :: rest, v =>
    if check_paddle_ball_collision ball_pos pp then paddleHitResponse sq ball_pos pp v
    else resolvePaddles sq ball_pos rest v

/-- `reset_ball_positions` (window_pong.rs lines 552-559): every ball is moved to
the window centre and given a random velocity; each ball consumes one `rng`
draw, advancing the cursor. -/
def resetBalls (rng : ℕ → Bool × ℚ) : List PEnt → ℕ → List PEnt × ℕ
  | [], k => ([], k)
  | e :: rest, k =>
    if e.ball then
      let r := resetBalls rng rest (k + 1)
      ({ e with
          pos := (WINDOW_WIDTH / 2 - BALL_SIZE / 2, WINDOW_HEIGHT / 2 - BALL_SIZE / 2),
          vel := (BALL_SPEED * (if (rng k).1 then 1 else -1),
                  ((rng k).2 - 0.5) * BALL_SPEED * 0.5) } :: r.1, r.2)
    else
      let r := resetBalls rng rest k
      (e :: r.1, r.2)

/-- The per-snapshotted-ball body of `PongCollisionSystem::run`: wall bounce,
paddle scan, then reaction to the scoring edges. `i` is the ball's entity index
and `bp` its snapshotted position. -/
def processBall (sq : ℚ → ℚ) (rng : ℕ → Bool × ℚ) (paddleSnap : List (ℚ × ℚ))
    (i : ℕ) (bp : ℚ × ℚ) : List PEnt × Score × ℕ → List PEnt × Score × ℕ
  | (ents, score, k) =>
    let ents1 :=
      if bp.2 ≤ 0 ∨ bp.2 ≥ WINDOW_HEIGHT - BALL_SIZE then
        modifyAt i (fun e => { e with vel := (e.vel.1, -e.vel.2) }) ents
      else ents
    let ents2 := modifyAt i (fun e => { e with vel := resolvePaddles sq bp paddleSnap e.vel }) ents1
    if bp.1 < -BALL_SIZE then
      let r := resetBalls rng ents2 k
      (r.1, { score with ai_score := score.ai_score + 1 }, r.2)
    else if bp.1 > WINDOW_WIDTH then
      let r := resetBalls rng ents2 k
      (r.1, { score with player_score := score.player_score + 1 }, r.2)
    else
      (ents2, score, k)

/-- `PongCollisionSystem::run`: snapshot ball and paddle positions, then process
each snapshotted ball in registry order. Returns the updated world and the rng
cursor. -/
def PongCollisionSystem.run (sq : ℚ → ℚ) (rng : ℕ → Bool × ℚ)
    (w : PWorld) (k : ℕ) : PWorld × ℕ :=
  let ballSnap := (w.ents.enum.filter fun p => p.2.ball).map fun p => (p.1, p.2.pos)
  let paddleSnap := (w.ents.enum.filter fun p => p.2.paddle).map fun p => p.2.pos
  let r := ballSnap.foldl (fun st b => processBall sq rng paddleSnap b.1 b.2 st)
    (w.ents, w.score, k)
  (⟨r.1, r.2.1⟩, r.2.2)

end WindowPong

/-! ### The breakout demo collision step (src/demos/breakout.rs)

`BreakoutCollisionSystem::run` makes three passes over the joined storages:
wall bounces (with position clamping and bottom-edge deletion), ball–paddle
bounces, and ball–brick bounces.  The brick loop collects every overlapping
brick into `bricks_to_remove` — without decrementing `Brick::hits_required` and
without a `break` — and deletes the collected entities afterwards;
`specs` defers the actual removal to the next `world.maintain()`.

The paddle branch's `f32` trigonometric calls are modelled by explicit function
parameters (`sinF`, `cosF`, `sq`); none of the claims depends on their values. -/

namespace Breakout

def WINDOW_WIDTH : ℚ := 800
def WINDOW_HEIGHT : ℚ := 600
def PADDLE_WIDTH : ℚ := 100
def PADDLE_HEIGHT : ℚ := 20
def BALL_SIZE : ℚ := 12
def BRICK_WIDTH : ℚ := 60
def BRICK_HEIGHT : ℚ := 20
def BALL_SPEED : ℚ := 300

/-- The exact value of `std::f32::consts::PI`. -/
def PI_F32 : ℚ := 13176795 / 4194304

/-- The `Brick` component (breakout.rs lines 40-46). -/
structure Brick where
  hits_required : ℤ
  points : ℤ
  color : ℚ × ℚ × ℚ × ℚ
deriving DecidableEq, Repr

/-- A breakout entity: position, velocity, marker components, an optional
`Brick` component, and whether `entities.delete` has been requested on it
(applied at the next `maintain`). -/
structure BEnt where
  pos : ℚ × ℚ
  vel : ℚ × ℚ
  ball : Bool
  paddle : Bool
  brick : Option Brick
  deleted : Bool
deriving DecidableEq, Repr

/-- Rust's `f32::clamp(min, max)`. -/
def rustClamp (x lo hi : ℚ) : ℚ :=
  if x < lo then lo else if x > hi then hi else x

/-- The wall branch of `BreakoutCollisionSystem::run` (lines 788-805) for one
ball: bounce off the left/right walls with `pos.x` clamped back into the
domain, bounce off the top wall with `pos.y` set to `0`, and request deletion
when the ball falls past the bottom edge. -/
def wallStep (e : BEnt) : BEnt :=
  let e1 :=
    if e.pos.1 ≤ 0 ∨ e.pos.1 ≥ WINDOW_WIDTH - BALL_SIZE then
      { e with vel := (-e.vel.1, e.vel.2),
               pos := (rustClamp e.pos.1 0 (WINDOW_WIDTH - BALL_SIZE), e.pos.2) }
    else e
  let e2 :=
    if e1.pos.2 ≤ 0 then
      { e1 with vel := (e1.vel.1, -e1.vel.2), pos := (e1.pos.1, 0) }
    else e1
  if e2.pos.2 ≥ WINDOW_HEIGHT then { e2 with deleted := true } else e2

/-- The ball–wall loop: `wallStep` on every entity with the `Ball` component. -/
def BreakoutCollisionSystem.wallPass (w : List BEnt) : List BEnt :=
  w.map fun e => if e.ball then wallStep e else e

/-- AABB overlap test of the paddle branch (lines 812-816), including the
`ball_vel.y > 0.0` "only if moving down" guard applied by the caller. -/
def paddleOverlap (ball_pos paddle_pos : ℚ × ℚ) : Prop :=
  ball_pos.1 < paddle_pos.1 + PADDLE_WIDTH ∧
  ball_pos.1 + BALL_SIZE > paddle_pos.1 ∧
  ball_pos.2 < paddle_pos.2 + PADDLE_HEIGHT ∧
  ball_pos.2 + BALL_SIZE > paddle_pos.2

instance (bp pp : ℚ × ℚ) : Decidable (paddleOverlap bp pp) :=
  inferInstanceAs (Decidable (_ ∧ _ ∧ _ ∧ _))

/-- The paddle-bounce body (lines 820-827): negate `vel.y`, then redirect the
velocity by an angle of up to sixty degrees set by the contact point, keeping
the speed. -/
def paddleBounce (sinF cosF sq : ℚ → ℚ) (ball_pos paddle_pos : ℚ × ℚ)
    (v : ℚ × ℚ) : ℚ × ℚ :=
  let vy := -v.2
  let hit_pos := (ball_pos.1 + BALL_SIZE / 2 - paddle_pos.1) / PADDLE_WIDTH
  let angle := (hit_pos - 0.5) * PI_F32 / 3
  let speed := sq (v.1 * v.1 + vy * vy)
  (sinF angle * speed, -|cosF angle| * speed)

/-- The ball–paddle loops (lines 807-830): for each ball, every overlapping
paddle with the ball moving down triggers a bounce; there is no `break`. -/
def BreakoutCollisionSystem.paddlePass (sinF cosF sq : ℚ → ℚ) (w : List BEnt) : List BEnt :=
  let paddleSnap := (w.enum.filter fun p => p.2.paddle).map fun p => p.2.pos
  let ballIdx := (w.enum.filter fun p => p.2.ball).map fun p => p.1
  ballIdx.foldl (fun ents i =>
    modifyAt i (fun e =>
      { e with vel := paddleSnap.foldl (fun v pp =>
          if paddleOverlap e.pos pp ∧ v.2 > 0 then paddleBounce sinF cosF sq e.pos pp v
          else v) e.vel }) ents) w

/-- AABB overlap test of the brick branch (lines 839-842). -/
def brickOverlap (ball_pos brick_pos : ℚ × ℚ) : Prop :=
  ball_pos.1 < brick_pos.1 + BRICK_WIDTH ∧
  ball_pos.1 + BALL_SIZE > brick_pos.1 ∧
  ball_pos.2 < brick_pos.2 + BRICK_HEIGHT ∧
  ball_pos.2 + BALL_SIZE > brick_pos.2

instance (bp kp : ℚ × ℚ) : Decidable (brickOverlap bp kp) :=
  inferInstanceAs (Decidable (_ ∧ _ ∧ _ ∧ _))

/-- One ball's brick scan (lines 838-851): every overlapping brick negates the
ball's `vel.y` (cumulatively — there is no `break`) and is appended to
`bricks_to_remove`. -/
def brickScan (brickSnap : List (ℕ × (ℚ × ℚ))) (bp : ℚ × ℚ)
    (st : (ℚ × ℚ) × List ℕ) : (ℚ × ℚ) × List ℕ :=
  brickSnap.foldl (fun st jb =>
    if brickOverlap bp jb.2 then ((st.1.1, -st.1.2), st.2 ++ [jb.1]) else st) st

/-- The ball–brick loops plus the deferred deletions (lines 832-857): scan the
bricks for each ball, then request deletion of every collected brick. -/
def BreakoutCollisionSystem.brickPass (w : List BEnt) : List BEnt :=
  let brickSnap := (w.enum.filter fun p => p.2.brick.isSome).map fun p => (p.1, p.2.pos)
  let ballIdx := (w.enum.filter fun p => p.2.ball).map fun p => p.1
  let r := ballIdx.foldl (fun (st : List BEnt × List ℕ) i =>
    let bp := ((st.1.get? i).map fun e => e.pos).getD (0, 0)
    let v := ((st.1.get? i).map fun e => e.vel).getD (0, 0)
    let s := brickScan brickSnap bp (v, st.2)
    (modifyAt i (fun e => { e with vel := s.1 }) st.1, s.2)) (w, [])
  r.2.foldl (fun ents j => modifyAt j (fun e => { e with deleted := true }) ents) r.1

/-- `BreakoutCollisionSystem::run`: the three passes in source order. -/
def BreakoutCollisionSystem.run (sinF cosF sq : ℚ → ℚ) (w : List BEnt) : List BEnt :=
  BreakoutCollisionSystem.brickPass
    (BreakoutCollisionSystem.paddlePass sinF cosF sq
      (BreakoutCollisionSystem.wallPass w))

/-- `world.maintain()` as it affects this world: entities whose deletion was
requested are removed from every storage and from all subsequent joins. -/
def maintain (w : List BEnt) : List BEnt :=
  w.filter fun e => !e.deleted

/-- The number of brick entities visible to a join over the brick storage. -/
def countBricks (w : List BEnt) : ℕ :=
  (w.filter fun e => e.brick.isSome).length

end Breakout

/-! ### Concrete sample worlds used by witnesses and counterexamples -/

/-- The concrete full entity used to settle claim C4. -/
def entC4 : EntF :=
  ⟨some (.fin 0, .fin 0), some (.fin 0, .fin 0), some (.fin 0, .fin 98)⟩

/-- A pong world whose single ball is past the right scoring edge. -/
def pongBallScored : WindowPong.PWorld :=
  ⟨[⟨(801, 300), (400, 200), true, false⟩], ⟨0, 0⟩⟩

/-- A pong world whose single ball is past the top boundary. -/
def pongTopBall : WindowPong.PWorld :=
  ⟨[⟨(400, -1), (10, -50), true, false⟩], ⟨0, 0⟩⟩

/-- A breakout world: one ball overlapping two bricks at once. -/
def breakoutTwoBricks : List Breakout.BEnt :=
  [⟨(100, 100), (50, 30), true, false, none, false⟩,
   ⟨(60, 95), (0, 0), false, false, some ⟨1, 10, (1, 0, 0, 1)⟩, false⟩,
   ⟨(90, 92), (0, 0), false, false, some ⟨1, 20, (0, 1, 0, 1)⟩, false⟩]

/-- A breakout world: one ball overlapping a single brick that still requires
two hits. -/
def breakoutToughBrick : List Breakout.BEnt :=
  [⟨(100, 100), (50, 30), true, false, none, false⟩,
   ⟨(60, 95), (0, 0), false, false, some ⟨2, 20, (1, 0, 0, 1)⟩, false⟩]

/-- An exact square-root oracle for the single value needed by the C5 witness. -/
def sqW : ℚ → ℚ := fun q => if q = 1000000 then 1000 else 0

/-- A per-tick dispatch consisting solely of the pong collision system (with a
given `rand::random` stream), as handed to the fixed-timestep driver. -/
def pongTick (rng : ℕ → Bool × ℚ) : ℚ → ℕ → WindowPong.PWorld × ℕ → WindowPong.PWorld × ℕ :=
  fun _ _ st => WindowPong.PongCollisionSystem.run (fun _ => 0) rng st.1 st.2

/-! ## Helper lemmas -/

/-- Multiplying by NaN yields NaN, whatever the other operand. -/
theorem F32.mul_nan (x : F32) : x.mul .nan = .nan := by
  cases x <;> rfl

/-- Adding NaN yields NaN, whatever the other operand. -/
theorem F32.add_nan (x : F32) : x.add .nan = .nan := by
  cases x <;> rfl

/-- Closed form of the inner loop: the update runs exactly `acc / step` times,
the frame counter increases by `acc / step`, and the final accumulator is
`acc % step`. -/
theorem GameLoop.drain_spec {σ : Type _} (step : Duration) (upd : ℕ → σ → σ) (hstep : 0 < step) :
    ∀ acc c s, drain step upd acc c s = (acc % step, c + acc / step, applyTicks upd c (acc / step) s) := by
  intro acc
  induction acc using Nat.strong_induction_on with
  | _ acc ih =>
    intro c s
    rw [drain]
    by_cases hle : step ≤ acc
    · have hacc : 0 < acc := Nat.lt_of_lt_of_le hstep hle
      rw [dif_pos ⟨hstep, hle⟩, ih (acc - step) (Nat.sub_lt hacc hstep)]
      have hmod : acc % step = (acc - step) % step := Nat.mod_eq_sub_mod hle
      have hdiv : acc / step = (acc - step) / step + 1 := Nat.div_eq_sub_div hstep hle
      rw [hmod, hdiv]
      obtain ⟨q, hq⟩ : ∃ q, (acc - step) / step = q := ⟨_, rfl⟩
      rw [hq]
      simp only [Prod.mk.injEq]
      exact ⟨by trivial, by omega, by trivial⟩
    · rw [dif_neg (by tauto)]
      have hmod : acc % step = acc := Nat.mod_eq_of_lt (Nat.lt_of_not_le hle)
      have hdiv : acc / step = 0 := Nat.div_eq_of_lt (Nat.lt_of_not_le hle)
      rw [hmod, hdiv]
      simp [applyTicks]

/-- The clamp in `GameLoop::run` is `min` of the measured delta and the cap. -/
theorem GameLoop.clampDelta_eq_min (maxFrameTime d : Duration) :
    clampDelta maxFrameTime d = min d maxFrameTime := by
  unfold clampDelta
  rcases le_or_lt d maxFrameTime with h | h
  · have hng : ¬ (d > maxFrameTime) := not_lt.mpr h
    rw [if_neg hng, min_eq_left h]
  · rw [if_pos h, min_eq_right (le_of_lt h)]

/-- Composing runs of `applyTicks`. -/
theorem GameLoop.applyTicks_add {σ : Type _} (upd : ℕ → σ → σ) :
    ∀ m n c s, applyTicks upd c (m + n) s = applyTicks upd (c + m) n (applyTicks upd c m s) := by
  intro m
  induction m with
  | zero => intro n c s; simp [applyTicks]
  | succ m ih =>
    intro n c s
    have : m + 1 + n = (m + n) + 1 := by omega
    rw [this]
    simp only [applyTicks]
    rw [ih]
    congr 1
    omega

/-- The state produced by `runFrames` is a function of the number of ticks it
executed: it equals `applyTicks` of the initial state, and the frame counter
never decreases. -/
theorem GameLoop.runFrames_state {σ : Type _} (maxFrameTime step : Duration)
    (upd : ℚ → ℕ → σ → σ) (hstep : 0 < step) :
    ∀ (ds : List Duration) (acc : Duration) (c : ℕ) (s : σ),
      c ≤ (runFrames maxFrameTime step upd ds (acc, c, s)).2.1 ∧
      (runFrames maxFrameTime step upd ds (acc, c, s)).2.2 =
        applyTicks (upd (stepSecs step)) c
          ((runFrames maxFrameTime step upd ds (acc, c, s)).2.1 - c) s := by
  intro ds
  induction ds with
  | nil =>
    intro acc c s
    simp [runFrames, applyTicks]
  | cons d rest ih =>
    intro acc c s
    have hfs : frameStep maxFrameTime step upd d (acc, c, s) =
        ((acc + clampDelta maxFrameTime d) % step,
         c + (acc + clampDelta maxFrameTime d) / step,
         applyTicks (upd (stepSecs step)) c ((acc + clampDelta maxFrameTime d) / step) s) := by
      unfold frameStep
      exact drain_spec step (upd (stepSecs step)) hstep _ c s
    have hrest := ih ((acc + clampDelta maxFrameTime d) % step)
      (c + (acc + clampDelta maxFrameTime d) / step)
      (applyTicks (upd (stepSecs step)) c ((acc + clampDelta maxFrameTime d) / step) s)
    have hrun : runFrames maxFrameTime step upd (d :: rest) (acc, c, s) =
        runFrames maxFrameTime step upd rest
          ((acc + clampDelta maxFrameTime d) % step,
           c + (acc + clampDelta maxFrameTime d) / step,
           applyTicks (upd (stepSecs step)) c ((acc + clampDelta maxFrameTime d) / step) s) := by
      simp only [runFrames, List.foldl_cons, hfs]
    rw [hrun]
    refine ⟨le_trans (Nat.le_add_right c _) hrest.1, ?_⟩
    rw [hrest.2]
    obtain ⟨k, hk⟩ : ∃ k, (acc + clampDelta maxFrameTime d) / step = k := ⟨_, rfl⟩
    rw [hk] at hrest ⊢
    obtain ⟨C, hC⟩ : ∃ C, (runFrames maxFrameTime step upd rest
          ((acc + clampDelta maxFrameTime d) % step, c + k,
           applyTicks (upd (stepSecs step)) c k s)).2.1 = C := ⟨_, rfl⟩
    rw [hC] at hrest ⊢
    have hck : c + k ≤ C := hrest.1
    rw [← applyTicks_add]
    congr 1
    omega

/-! ## Claims -/

/-- Claim C10: for every `Health` with `0 ≤ current ≤ maximum`,
`take_damage d` with `d ≥ 0` and `heal a` with `a ≥ 0` preserve
`0 ≤ current ≤ maximum` — `take_damage` saturates at `0` and `heal` saturates
at `maximum` — and `is_alive` returns `true` exactly when `current > 0`. -/
theorem health_bounds_preserved (h : Health) (d a : ℚ)
    (hc0 : 0 ≤ h.current) (hcm : h.current ≤ h.maximum) (hd : 0 ≤ d) (ha : 0 ≤ a) :
    (0 ≤ (h.take_damage d).current ∧ (h.take_damage d).current ≤ (h.take_damage d).maximum) ∧
    (0 ≤ (h.heal a).current ∧ (h.heal a).current ≤ (h.heal a).maximum) ∧
    (h.is_alive = true ↔ 0 < h.current) := by
  have hm0 : 0 ≤ h.maximum := le_trans hc0 hcm
  refine ⟨⟨?_, ?_⟩, ⟨?_, ?_⟩, ?_⟩
  · simp only [Health.take_damage]
    exact le_max_right _ _
  · simp only [Health.take_damage]
    exact max_le (le_trans (sub_le_self _ hd) hcm) hm0
  · simp only [Health.heal]
    exact le_min (add_nonneg hc0 ha) hm0
  · simp only [Health.heal]
    exact min_le_right _ _
  · simp [Health.is_alive]

/-- Witness for C10 at `current = 50`, `maximum = 100`, damage `70`, heal `30`. -/
theorem health_bounds_preserved_witness :
    ((0 : ℚ) ≤ 50 ∧ (50 : ℚ) ≤ 100 ∧ (0 : ℚ) ≤ 70 ∧ (0 : ℚ) ≤ 30) ∧
    (0 ≤ ((Health.mk 50 100).take_damage 70).current ∧
      ((Health.mk 50 100).take_damage 70).current ≤ ((Health.mk 50 100).take_damage 70).maximum) ∧
    (0 ≤ ((Health.mk 50 100).heal 30).current ∧
      ((Health.mk 50 100).heal 30).current ≤ ((Health.mk 50 100).heal 30).maximum) ∧
    ((Health.mk 50 100).is_alive = true ↔ 0 < (Health.mk 50 100).current) := by
  refine ⟨by norm_num, ?_⟩
  exact health_bounds_preserved (Health.mk 50 100) 70 30 (by norm_num) (by norm_num)
    (by norm_num) (by norm_num)

/-- Claim C2: one run of `PhysicsSystem::run` with `Time.delta = dt` first sets
`velocity := v + a*dt` for entities with `Velocity` and `Acceleration`, then
sets `position := p + v'*dt` using the already-updated velocity `v'`
(semi-implicit Euler). -/
theorem physicsSystem_semi_implicit_euler (dt : ℚ) (w : List Ent) (i : ℕ)
    (p : Position) (v : Velocity) (a : Acceleration)
    (h : w.get? i = some ⟨some p, some v, some a⟩) :
    (PhysicsSystem.run dt w).get? i =
      some ⟨some ⟨p.x + (v.x + a.x * dt) * dt, p.y + (v.y + a.y * dt) * dt⟩,
            some ⟨v.x + a.x * dt, v.y + a.y * dt⟩, some a⟩ := by
  simp only [PhysicsSystem.run, List.map_map, List.get?_map, h, Option.map_some']
  rfl

/-- Witness for C2, the spec's concrete instance: `Acceleration=(0,98)`,
`Velocity=(0,0)`, `Position=(0,0)`, `dt = 1/60` gives `Velocity.y = 98/60` and
`Position.y = (98/60)*(1/60)`, not `0`. -/
theorem physicsSystem_semi_implicit_euler_witness :
    (([(⟨some ⟨0, 0⟩, some ⟨0, 0⟩, some ⟨0, 98⟩⟩ : Ent)]).get? 0 =
      some ⟨some ⟨0, 0⟩, some ⟨0, 0⟩, some ⟨0, 98⟩⟩) ∧
    (PhysicsSystem.run (1 / 60) [⟨some ⟨0, 0⟩, some ⟨0, 0⟩, some ⟨0, 98⟩⟩]).get? 0 =
      some ⟨some ⟨0, 98 / 60 * (1 / 60)⟩, some ⟨0, 98 / 60⟩, some ⟨0, 98⟩⟩ := by
  refine ⟨rfl, ?_⟩
  have h := physicsSystem_semi_implicit_euler (1 / 60) [⟨some ⟨0, 0⟩, some ⟨0, 0⟩, some ⟨0, 98⟩⟩]
    0 ⟨0, 0⟩ ⟨0, 0⟩ ⟨0, 98⟩ rfl
  rw [h]
  norm_num

/-- Claim C4 as stated is false: with `Time.delta = NaN` the physics step is
not skipped — the entity's `Position` is not left unchanged, the NaN is
propagated into both position coordinates. -/
theorem physicsSystemF_nan_not_skipped :
    (PhysicsSystemF.run F32.nan [entC4]).map (fun e => e.pos) ≠ [entC4].map (fun e => e.pos) ∧
    (PhysicsSystemF.run F32.nan [entC4]).map (fun e => e.pos) = [some (F32.nan, F32.nan)] := by
  constructor
  · decide
  · decide

/-- Claim C4 amended: `PhysicsSystem::run` contains no finiteness check on
`Time.delta`; with a NaN delta the two integration loops still run and the NaN
propagates into every joined entity's `Velocity` and `Position`. -/
theorem physicsSystemF_nan_propagates (w : List EntF) (i : ℕ)
    (p v a : F32 × F32) (h : w.get? i = some ⟨some p, some v, some a⟩) :
    (PhysicsSystemF.run F32.nan w).get? i =
      some ⟨some (F32.nan, F32.nan), some (F32.nan, F32.nan), some a⟩ := by
  simp only [PhysicsSystemF.run, List.map_map, List.get?_map, h, Option.map_some']
  simp only [Function.comp, applyAccelPassF, applyMovePassF, F32.mul_nan, F32.add_nan]

/-- Witness for the amended C4 at a concrete entity. -/
theorem physicsSystemF_nan_propagates_witness :
    ([entC4].get? 0 = some ⟨some (.fin 0, .fin 0), some (.fin 0, .fin 0), some (.fin 0, .fin 98)⟩) ∧
    (PhysicsSystemF.run F32.nan [entC4]).get? 0 =
      some ⟨some (F32.nan, F32.nan), some (F32.nan, F32.nan), some (.fin 0, .fin 98)⟩ := by
  exact ⟨rfl, physicsSystemF_nan_propagates [entC4] 0 _ _ _ rfl⟩

/-- Evaluation form of one outer-loop iteration (shared helper). -/
theorem GameLoop.frameStep_eval {σ : Type _} (maxFrameTime step : Duration)
    (upd : ℚ → ℕ → σ → σ) (d acc : Duration) (c : ℕ) (s : σ) (hstep : 0 < step) :
    frameStep maxFrameTime step upd d (acc, c, s) =
      ((acc + clampDelta maxFrameTime d) % step,
       c + (acc + clampDelta maxFrameTime d) / step,
       applyTicks (upd (stepSecs step)) c ((acc + clampDelta maxFrameTime d) / step) s) := by
  show drain step (upd (stepSecs step)) (acc + clampDelta maxFrameTime d) c s = _
  exact drain_spec step (upd (stepSecs step)) hstep _ c s

/-- Claim C3: in every iteration of the driver loop the measured delta is first
clamped to `max_frame_time`, then added to the accumulator; the update function
then runs exactly `⌊accumulator / fixed_step⌋` times, each time with
`dt = stepSecs step` and with the tick counter incremented once per invocation,
and the final accumulator — the remainder — is strictly below the step size. -/
theorem GameLoop.frameStep_fixed_timestep {σ : Type _} (maxFrameTime step : Duration)
    (upd : ℚ → ℕ → σ → σ) (d acc : Duration) (c : ℕ) (s : σ) (hstep : 0 < step) :
    frameStep maxFrameTime step upd d (acc, c, s) =
      ((acc + min d maxFrameTime) % step,
       c + (acc + min d maxFrameTime) / step,
       applyTicks (upd (stepSecs step)) c ((acc + min d maxFrameTime) / step) s) ∧
    (acc + min d maxFrameTime) % step < step := by
  constructor
  · rw [frameStep_eval maxFrameTime step upd d acc c s hstep, clampDelta_eq_min]
  · exact Nat.mod_lt _ hstep

/-- Witness for C3 with the default configuration (100 ms cap, 60 fps step):
a 120 ms frame is clamped to 100 ms and yields six updates with 4 ns left. -/
theorem GameLoop.frameStep_fixed_timestep_witness :
    0 < targetFrameTime 60 ∧
    frameStep maxFrameTimeDefault (targetFrameTime 60) (fun _ _ (n : ℕ) => n + 1)
        120000000 (5, 0, 0) =
      ((5 + min 120000000 maxFrameTimeDefault) % targetFrameTime 60,
       0 + (5 + min 120000000 maxFrameTimeDefault) / targetFrameTime 60,
       applyTicks ((fun _ _ (n : ℕ) => n + 1) (stepSecs (targetFrameTime 60))) 0
         ((5 + min 120000000 maxFrameTimeDefault) / targetFrameTime 60) 0) ∧
    (5 + min 120000000 maxFrameTimeDefault) % targetFrameTime 60 < targetFrameTime 60 := by
  refine ⟨by norm_num [targetFrameTime], ?_⟩
  exact frameStep_fixed_timestep maxFrameTimeDefault (targetFrameTime 60)
    (fun _ _ (n : ℕ) => n + 1) 120000000 5 0 0 (by norm_num [targetFrameTime])

/-- Claim C1 amended: the fixed-timestep driver is frame-rate independent —
whenever the per-tick update is a deterministic function of the tick index and
the state, two runs from the same initial state over different wall-clock delta
sequences that execute the same number of simulation ticks end in the same
state (hence byte-identical `Position`/`Velocity` values). The pong demo's
scoring reset violates the premise by drawing fresh `rand::random` values, so
the rng draws must also be fixed — see the counterexample. -/
theorem GameLoop.runFrames_deterministic {σ : Type _} (maxFrameTime step : Duration)
    (upd : ℚ → ℕ → σ → σ) (ds₁ ds₂ : List Duration) (acc : Duration)
    (c : ℕ) (s : σ) (hstep : 0 < step)
    (hticks : (runFrames maxFrameTime step upd ds₁ (acc, c, s)).2.1 =
              (runFrames maxFrameTime step upd ds₂ (acc, c, s)).2.1) :
    (runFrames maxFrameTime step upd ds₁ (acc, c, s)).2.2 =
    (runFrames maxFrameTime step upd ds₂ (acc, c, s)).2.2 := by
  have h1 := runFrames_state maxFrameTime step upd hstep ds₁ acc c s
  have h2 := runFrames_state maxFrameTime step upd hstep ds₂ acc c s
  rw [h1.2, h2.2, hticks]

/-- Witness for the amended C1: one 32 ns frame versus two 16 ns frames with a
16 ns step both execute two ticks and end in the same state. -/
theorem GameLoop.runFrames_deterministic_witness :
    0 < 16 ∧
    ((runFrames 100 16 (fun _ _ (n : ℕ) => n + 1) [32] (0, 0, 0)).2.1 =
     (runFrames 100 16 (fun _ _ (n : ℕ) => n + 1) [16, 16] (0, 0, 0)).2.1) ∧
    ((runFrames 100 16 (fun _ _ (n : ℕ) => n + 1) [32] (0, 0, 0)).2.2 =
     (runFrames 100 16 (fun _ _ (n : ℕ) => n + 1) [16, 16] (0, 0, 0)).2.2) := by
  have e1 : runFrames 100 16 (fun _ _ (n : ℕ) => n + 1) [32] (0, 0, 0) = (0, 2, 2) := by
    rw [show runFrames 100 16 (fun _ _ (n : ℕ) => n + 1) [32] ((0 : ℕ), (0 : ℕ), (0 : ℕ)) =
        frameStep 100 16 (fun _ _ (n : ℕ) => n + 1) 32 (0, 0, 0) from rfl]
    rw [frameStep_eval 100 16 (fun _ _ (n : ℕ) => n + 1) 32 0 0 0 (by norm_num)]
    norm_num [clampDelta, applyTicks]
  have s1 : frameStep 100 16 (fun _ _ (n : ℕ) => n + 1) 16 ((0 : ℕ), (0 : ℕ), (0 : ℕ)) =
      (0, 1, 1) := by
    rw [frameStep_eval 100 16 (fun _ _ (n : ℕ) => n + 1) 16 0 0 0 (by norm_num)]
    norm_num [clampDelta, applyTicks]
  have s2 : frameStep 100 16 (fun _ _ (n : ℕ) => n + 1) 16 ((0 : ℕ), (1 : ℕ), (1 : ℕ)) =
      (0, 2, 2) := by
    rw [frameStep_eval 100 16 (fun _ _ (n : ℕ) => n + 1) 16 0 1 1 (by norm_num)]
    norm_num [clampDelta, applyTicks]
  have e2 : runFrames 100 16 (fun _ _ (n : ℕ) => n + 1) [16, 16] (0, 0, 0) = (0, 2, 2) := by
    rw [show runFrames 100 16 (fun _ _ (n : ℕ) => n + 1) [16, 16] ((0 : ℕ), (0 : ℕ), (0 : ℕ)) =
        frameStep 100 16 (fun _ _ (n : ℕ) => n + 1) 16
          (frameStep 100 16 (fun _ _ (n : ℕ) => n + 1) 16 (0, 0, 0)) from rfl]
    rw [s1, s2]
  exact ⟨by norm_num, by rw [e1, e2],
    runFrames_deterministic 100 16 (fun _ _ (n : ℕ) => n + 1) [32] [16, 16] 0 0 0
      (by norm_num) (by rw [e1, e2])⟩

/-- Claim C1 as stated is false on the demo: two driver runs from the same
initial world over different wall-clock deltas execute the same number of
simulation ticks, yet end with different ball `Velocity` values, because the
scoring reset inside `PongCollisionSystem::run` calls `rand::random` (fresh
entropy that is neither an `InputSnapshot` nor part of the initial world). -/
theorem pong_reset_randomness_counterexample :
    ((GameLoop.runFrames 100 16 (pongTick fun _ => (true, 1/2))
        [16] (0, 0, (pongBallScored, 0))).2.1 =
     (GameLoop.runFrames 100 16 (pongTick fun _ => (false, 1/2))
        [10, 6] (0, 0, (pongBallScored, 0))).2.1) ∧
    ((GameLoop.runFrames 100 16 (pongTick fun _ => (true, 1/2))
        [16] (0, 0, (pongBallScored, 0))).2.2.1.ents.map fun e => e.vel) = [(400, 0)] ∧
    ((GameLoop.runFrames 100 16 (pongTick fun _ => (false, 1/2))
        [10, 6] (0, 0, (pongBallScored, 0))).2.2.1.ents.map fun e => e.vel) = [(-400, 0)] := by
  have q1 : GameLoop.runFrames 100 16 (pongTick fun _ => (true, 1/2))
      [16] (0, 0, (pongBallScored, 0)) =
      (0, 1, pongTick (fun _ => (true, 1/2)) (GameLoop.stepSecs 16) 0 (pongBallScored, 0)) := by
    rw [show GameLoop.runFrames 100 16 (pongTick fun _ => (true, 1/2))
        [16] ((0 : ℕ), (0 : ℕ), (pongBallScored, 0)) =
        GameLoop.frameStep 100 16 (pongTick fun _ => (true, 1/2)) 16
          (0, 0, (pongBallScored, 0)) from rfl]
    rw [GameLoop.frameStep_eval 100 16 (pongTick fun _ => (true, 1/2)) 16 0 0
      (pongBallScored, 0) (by norm_num)]
    norm_num [GameLoop.clampDelta, GameLoop.applyTicks]
  have t1 : GameLoop.frameStep 100 16 (pongTick fun _ => (false, 1/2)) 10
      ((0 : ℕ), (0 : ℕ), (pongBallScored, 0)) = (10, 0, (pongBallScored, 0)) := by
    rw [GameLoop.frameStep_eval 100 16 (pongTick fun _ => (false, 1/2)) 10 0 0
      (pongBallScored, 0) (by norm_num)]
    norm_num [GameLoop.clampDelta, GameLoop.applyTicks]
  have t2 : GameLoop.frameStep 100 16 (pongTick fun _ => (false, 1/2)) 6
      ((10 : ℕ), (0 : ℕ), (pongBallScored, 0)) =
      (0, 1, pongTick (fun _ => (false, 1/2)) (GameLoop.stepSecs 16) 0 (pongBallScored, 0)) := by
    rw [GameLoop.frameStep_eval 100 16 (pongTick fun _ => (false, 1/2)) 6 10 0
      (pongBallScored, 0) (by norm_num)]
    norm_num [GameLoop.clampDelta, GameLoop.applyTicks]
  have q2 : GameLoop.runFrames 100 16 (pongTick fun _ => (false, 1/2))
      [10, 6] (0, 0, (pongBallScored, 0)) =
      (0, 1, pongTick (fun _ => (false, 1/2)) (GameLoop.stepSecs 16) 0 (pongBallScored, 0)) := by
    rw [show GameLoop.runFrames 100 16 (pongTick fun _ => (false, 1/2))
        [10, 6] ((0 : ℕ), (0 : ℕ), (pongBallScored, 0)) =
        GameLoop.frameStep 100 16 (pongTick fun _ => (false, 1/2)) 6
          (GameLoop.frameStep 100 16 (pongTick fun _ => (false, 1/2)) 10
            (0, 0, (pongBallScored, 0))) from rfl]
    rw [t1, t2]
  have hrun1 : WindowPong.PongCollisionSystem.run (fun _ => 0) (fun _ => (true, 1/2))
      pongBallScored 0 =
      (⟨[⟨(785/2, 585/2), (400, 0), true, false⟩], ⟨1, 0⟩⟩, 1) := by
    norm_num [WindowPong.PongCollisionSystem.run, pongBallScored, WindowPong.processBall,
      WindowPong.resetBalls, WindowPong.resolvePaddles, modifyAt, List.enum, List.enumFrom,
      List.filter, WindowPong.WINDOW_WIDTH, WindowPong.WINDOW_HEIGHT, WindowPong.BALL_SIZE,
      WindowPong.BALL_SPEED]
  have hrun2 : WindowPong.PongCollisionSystem.run (fun _ => 0) (fun _ => (false, 1/2))
      pongBallScored 0 =
      (⟨[⟨(785/2, 585/2), (-400, 0), true, false⟩], ⟨1, 0⟩⟩, 1) := by
    norm_num [WindowPong.PongCollisionSystem.run, pongBallScored, WindowPong.processBall,
      WindowPong.resetBalls, WindowPong.resolvePaddles, modifyAt, List.enum, List.enumFrom,
      List.filter, WindowPong.WINDOW_WIDTH, WindowPong.WINDOW_HEIGHT, WindowPong.BALL_SIZE,
      WindowPong.BALL_SPEED]
  refine ⟨by rw [q1, q2], ?_, ?_⟩
  · rw [q1]
    show ((WindowPong.PongCollisionSystem.run (fun _ => 0) (fun _ => (true, 1/2))
        pongBallScored 0).1.ents.map fun e => e.vel) = [(400, 0)]
    rw [hrun1]
    rfl
  · rw [q2]
    show ((WindowPong.PongCollisionSystem.run (fun _ => 0) (fun _ => (false, 1/2))
        pongBallScored 0).1.ents.map fun e => e.vel) = [(-400, 0)]
    rw [hrun2]
    rfl

/-- Claim C5: in the pong paddle-collision branch, writing `(wx, wy)` for the
velocity after reflection and spin and `s` for its computed magnitude: whenever
`s` exceeds `1.5 ×` the nominal ball speed the response is rescaled to a vector
of magnitude exactly `1.2 ×` nominal that is a positive multiple of `(wx, wy)`
(direction preserved); at or below the threshold the velocity is unchanged. -/
theorem WindowPong.paddle_speed_cap (sq : ℚ → ℚ) (bp pp v : ℚ × ℚ) (wx wy s : ℚ)
    (hwx : wx = -v.1)
    (hwy : wy = v.2 + (bp.2 + BALL_SIZE / 2 - (pp.2 + PADDLE_HEIGHT / 2)) / (PADDLE_HEIGHT / 2) * 100)
    (hs : s = sq (wx * wx + wy * wy))
    (hsq : s * s = wx * wx + wy * wy) (hs0 : 0 ≤ s) :
    (s > BALL_SPEED * 1.5 →
      ((paddleHitResponse sq bp pp v).1 * (paddleHitResponse sq bp pp v).1 +
        (paddleHitResponse sq bp pp v).2 * (paddleHitResponse sq bp pp v).2 =
          (BALL_SPEED * 1.2) * (BALL_SPEED * 1.2)) ∧
      ∃ c, 0 < c ∧ paddleHitResponse sq bp pp v = (c * wx, c * wy)) ∧
    (¬ s > BALL_SPEED * 1.5 → paddleHitResponse sq bp pp v = (wx, wy)) := by
  constructor
  · intro hgt
    have hspos : (0 : ℚ) < s := by
      have h600 : (0 : ℚ) < BALL_SPEED * 1.5 := by norm_num [BALL_SPEED]
      exact lt_trans h600 hgt
    have hsne := ne_of_gt hspos
    have h2 : s * s ≠ 0 := mul_ne_zero hsne hsne
    constructor
    · simp only [paddleHitResponse]
      rw [← hwx, ← hwy, ← hs, if_pos hgt]
      have expand : (wx / s * BALL_SPEED * 1.2) * (wx / s * BALL_SPEED * 1.2) +
          (wy / s * BALL_SPEED * 1.2) * (wy / s * BALL_SPEED * 1.2) =
          (wx * wx + wy * wy) * ((BALL_SPEED * 1.2) * (BALL_SPEED * 1.2)) * (s * s)⁻¹ := by
        ring
      rw [expand, ← hsq]
      field_simp
    · refine ⟨BALL_SPEED * 1.2 / s, ?_, ?_⟩
      · have hB : (0 : ℚ) < BALL_SPEED * 1.2 := by norm_num [BALL_SPEED]
        exact div_pos hB hspos
      · simp only [paddleHitResponse]
        rw [← hwx, ← hwy, ← hs, if_pos hgt, Prod.mk.injEq]
        constructor
        · field_simp
          ring
        · field_simp
          ring
  · intro hng
    simp only [paddleHitResponse]
    rw [← hwx, ← hwy, ← hs, if_neg hng]

/-- Witness for C5: reflected-and-spun velocity `(600, 800)` has magnitude
`1000 > 600 = 1.5 ×` nominal and is rescaled to magnitude `480 = 1.2 ×`
nominal, a positive multiple of `(600, 800)`. -/
theorem WindowPong.paddle_speed_cap_witness :
    (1000 : ℚ) > BALL_SPEED * 1.5 ∧
    ((paddleHitResponse sqW (0, 85/2) (0, 0) (-600, 800)).1 *
        (paddleHitResponse sqW (0, 85/2) (0, 0) (-600, 800)).1 +
      (paddleHitResponse sqW (0, 85/2) (0, 0) (-600, 800)).2 *
        (paddleHitResponse sqW (0, 85/2) (0, 0) (-600, 800)).2 =
        (BALL_SPEED * 1.2) * (BALL_SPEED * 1.2)) ∧
    ∃ c, 0 < c ∧ paddleHitResponse sqW (0, 85/2) (0, 0) (-600, 800) = (c * 600, c * 800) := by
  have h := paddle_speed_cap sqW (0, 85/2) (0, 0) (-600, 800) 600 800 1000
    (by norm_num) (by norm_num [BALL_SIZE, PADDLE_HEIGHT]) (by norm_num [sqW])
    (by norm_num) (by norm_num)
  have hgt : (1000 : ℚ) > BALL_SPEED * 1.5 := by norm_num [BALL_SPEED]
  exact ⟨hgt, (h.1 hgt).1, (h.1 hgt).2⟩

/-- Claim C9: in the same collision-step run that detects the ball past the
right scoring edge (`x > field width`), `player_score` is incremented by
exactly one (the other side's counter unchanged) and the ball's position is
reset to the field centre with a freshly randomized velocity — so the post-step
state read by the next physics step is never the off-field position;
symmetrically the left edge increments `ai_score`. -/
theorem WindowPong.scoring_resets_same_tick (sq : ℚ → ℚ) (rng : ℕ → Bool × ℚ) (k : ℕ)
    (x y vx vy : ℚ) (sp sa : ℕ) :
    (x > WINDOW_WIDTH →
      PongCollisionSystem.run sq rng ⟨[⟨(x, y), (vx, vy), true, false⟩], ⟨sp, sa⟩⟩ k =
        (⟨[⟨(WINDOW_WIDTH / 2 - BALL_SIZE / 2, WINDOW_HEIGHT / 2 - BALL_SIZE / 2),
            (BALL_SPEED * (if (rng k).1 then 1 else -1), ((rng k).2 - 0.5) * BALL_SPEED * 0.5),
            true, false⟩], ⟨sp + 1, sa⟩⟩, k + 1)) ∧
    (x < -BALL_SIZE →
      PongCollisionSystem.run sq rng ⟨[⟨(x, y), (vx, vy), true, false⟩], ⟨sp, sa⟩⟩ k =
        (⟨[⟨(WINDOW_WIDTH / 2 - BALL_SIZE / 2, WINDOW_HEIGHT / 2 - BALL_SIZE / 2),
            (BALL_SPEED * (if (rng k).1 then 1 else -1), ((rng k).2 - 0.5) * BALL_SPEED * 0.5),
            true, false⟩], ⟨sp, sa + 1⟩⟩, k + 1)) := by
  constructor
  · intro hx
    have hnl : ¬ x < -BALL_SIZE := by
      have hW : (0 : ℚ) < WINDOW_WIDTH := by norm_num [WINDOW_WIDTH]
      have hB : (0 : ℚ) < BALL_SIZE := by norm_num [BALL_SIZE]
      intro hcon
      linarith
    simp only [PongCollisionSystem.run, List.enum, List.enumFrom, List.filter, List.map,
      List.foldl, processBall, modifyAt, resolvePaddles]
    simp [hx, hnl]
    by_cases hw : ((y : ℚ) ≤ 0 ∨ WINDOW_HEIGHT ≤ y + BALL_SIZE)
    · rw [if_pos hw]
      simp [modifyAt, resetBalls]
    · rw [if_neg hw]
      simp [modifyAt, resetBalls]
  · intro hx
    simp only [PongCollisionSystem.run, List.enum, List.enumFrom, List.filter, List.map,
      List.foldl, processBall, modifyAt, resolvePaddles]
    simp [hx]
    by_cases hw : ((y : ℚ) ≤ 0 ∨ WINDOW_HEIGHT ≤ y + BALL_SIZE)
    · rw [if_pos hw]
      simp [modifyAt, resetBalls]
    · rw [if_neg hw]
      simp [modifyAt, resetBalls]

/-- Witness for C9 at both scoring edges. -/
theorem WindowPong.scoring_resets_same_tick_witness :
    ((801 : ℚ) > WINDOW_WIDTH ∧
      PongCollisionSystem.run (fun _ => 0) (fun _ => (true, 1/2))
          ⟨[⟨(801, 300), (5, 7), true, false⟩], ⟨2, 3⟩⟩ 0 =
        (⟨[⟨(WINDOW_WIDTH / 2 - BALL_SIZE / 2, WINDOW_HEIGHT / 2 - BALL_SIZE / 2),
            (BALL_SPEED * (if ((fun _ : ℕ => ((true : Bool), (1/2 : ℚ))) 0).1 then 1 else -1),
             (((fun _ : ℕ => ((true : Bool), (1/2 : ℚ))) 0).2 - 0.5) * BALL_SPEED * 0.5),
            true, false⟩], ⟨2 + 1, 3⟩⟩, 0 + 1)) ∧
    ((-16 : ℚ) < -BALL_SIZE ∧
      PongCollisionSystem.run (fun _ => 0) (fun _ => (true, 1/2))
          ⟨[⟨(-16, 300), (5, 7), true, false⟩], ⟨2, 3⟩⟩ 0 =
        (⟨[⟨(WINDOW_WIDTH / 2 - BALL_SIZE / 2, WINDOW_HEIGHT / 2 - BALL_SIZE / 2),
            (BALL_SPEED * (if ((fun _ : ℕ => ((true : Bool), (1/2 : ℚ))) 0).1 then 1 else -1),
             (((fun _ : ℕ => ((true : Bool), (1/2 : ℚ))) 0).2 - 0.5) * BALL_SPEED * 0.5),
            true, false⟩], ⟨2, 3 + 1⟩⟩, 0 + 1)) := by
  have h1 := (scoring_resets_same_tick (fun _ => 0) (fun _ => (true, 1/2)) 0
    801 300 5 7 2 3).1 (by norm_num [WINDOW_WIDTH])
  have h2 := (scoring_resets_same_tick (fun _ => 0) (fun _ => (true, 1/2)) 0
    (-16) 300 5 7 2 3).2 (by norm_num [BALL_SIZE])
  exact ⟨⟨by norm_num [WINDOW_WIDTH], h1⟩, ⟨by norm_num [BALL_SIZE], h2⟩⟩

/-- Claim C6 amended (breakout side): in the breakout wall pass, a ball past
the top edge (`pos.y ≤ 0`) has its perpendicular velocity component negated
and its position clamped back to `y = 0`; it is not deleted. -/
theorem Breakout.wall_reflects_and_clamps (x y vx vy : ℚ) (hy : y ≤ 0) :
    ((BreakoutCollisionSystem.wallPass [⟨(x, y), (vx, vy), true, false, none, false⟩]).map
      fun e => (e.pos.2, e.vel.2, e.deleted)) = [(0, -vy, false)] := by
  simp only [BreakoutCollisionSystem.wallPass, List.map]
  by_cases hx : ((x : ℚ) ≤ 0 ∨ WINDOW_WIDTH ≤ x + BALL_SIZE)
  · norm_num [wallStep, hx, hy, WINDOW_HEIGHT]
  · norm_num [wallStep, hx, hy, WINDOW_HEIGHT]

/-- Witness for the amended C6: the spec's concrete instance `y = -1`,
`vy = -50` ends the wall pass with `y = 0`, `vy = 50`, still alive. -/
theorem Breakout.wall_reflects_and_clamps_witness :
    ((-1 : ℚ) ≤ 0) ∧
    ((BreakoutCollisionSystem.wallPass [⟨(100, -1), (0, -50), true, false, none, false⟩]).map
      fun e => (e.pos.2, e.vel.2, e.deleted)) = [(0, 50, false)] := by
  refine ⟨by norm_num, ?_⟩
  have h := wall_reflects_and_clamps 100 (-1) 0 (-50) (by norm_num)
  simpa using h

/-- Claim C6 as stated is false in the pong demo: a ball at `y = -1` with
`vy = -50` gets its velocity negated by the wall branch but its position is
left at `-1`, not clamped back to the boundary. -/
theorem pong_wall_no_clamp_counterexample :
    ((WindowPong.PongCollisionSystem.run (fun _ => 0) (fun _ => (true, 0)) pongTopBall 0).1.ents.map
      fun e => e.pos) = [(400, -1)] ∧
    ((WindowPong.PongCollisionSystem.run (fun _ => 0) (fun _ => (true, 0)) pongTopBall 0).1.ents.map
      fun e => e.vel) = [(10, 50)] := by
  have h : WindowPong.PongCollisionSystem.run (fun _ => 0) (fun _ => (true, 0)) pongTopBall 0 =
      (⟨[⟨(400, -1), (10, 50), true, false⟩], ⟨0, 0⟩⟩, 0) := by
    norm_num [WindowPong.PongCollisionSystem.run, pongTopBall, WindowPong.processBall,
      WindowPong.resetBalls, WindowPong.resolvePaddles, modifyAt, List.enum, List.enumFrom,
      List.filter, WindowPong.WINDOW_WIDTH, WindowPong.WINDOW_HEIGHT, WindowPong.BALL_SIZE,
      WindowPong.BALL_SPEED]
  rw [h]
  exact ⟨rfl, rfl⟩

/-- Claim C7: the claim's multi-hit behaviour is what the spec requires, but
the code deletes a brick on its first collision without ever reading or
decrementing `hits_required` (breakout.rs:847-849 even notes the gap: "In a
full implementation, we'd track brick health").  Evaluated at the failing
input — one ball overlapping one brick with `hits_required = 2` — the brick
pass negates the ball's `vel.y` and requests deletion of the brick with its
counter still at `2`, and after `maintain()` the brick is gone. -/
theorem breakout_hits_required_ignored :
    ((Breakout.BreakoutCollisionSystem.brickPass breakoutToughBrick).map
      fun e => e.brick.map fun b => b.hits_required) = [none, some 2] ∧
    ((Breakout.BreakoutCollisionSystem.brickPass breakoutToughBrick).map fun e => e.vel) =
      [(50, -30), (0, 0)] ∧
    Breakout.countBricks (Breakout.maintain
      (Breakout.BreakoutCollisionSystem.brickPass breakoutToughBrick)) = 0 := by
  have h : Breakout.BreakoutCollisionSystem.brickPass breakoutToughBrick =
      [⟨(100, 100), (50, -30), true, false, none, false⟩,
       ⟨(60, 95), (0, 0), false, false, some ⟨2, 20, (1, 0, 0, 1)⟩, true⟩] := by
    norm_num [Breakout.BreakoutCollisionSystem.brickPass, Breakout.brickScan,
      breakoutToughBrick, modifyAt, List.enum, List.enumFrom, List.filter, List.foldl,
      List.get?, Breakout.brickOverlap, Breakout.BRICK_WIDTH, Breakout.BRICK_HEIGHT,
      Breakout.BALL_SIZE]
  rw [h]
  exact ⟨rfl, rfl, rfl⟩

/-- Claim C8 as stated is false for the breakout brick loop: it has no `break`,
so a ball overlapping two bricks in the same tick has `vel.y` negated twice —
ending with its original velocity, not reflected exactly once — and both
bricks are removed. -/
theorem breakout_no_break_counterexample :
    ((Breakout.BreakoutCollisionSystem.brickPass breakoutTwoBricks).map fun e => e.vel) =
      [(50, 30), (0, 0), (0, 0)] ∧
    Breakout.countBricks (Breakout.maintain
      (Breakout.BreakoutCollisionSystem.brickPass breakoutTwoBricks)) = 0 := by
  have h : Breakout.BreakoutCollisionSystem.brickPass breakoutTwoBricks =
      [⟨(100, 100), (50, 30), true, false, none, false⟩,
       ⟨(60, 95), (0, 0), false, false, some ⟨1, 10, (1, 0, 0, 1)⟩, true⟩,
       ⟨(90, 92), (0, 0), false, false, some ⟨1, 20, (0, 1, 0, 1)⟩, true⟩] := by
    norm_num [Breakout.BreakoutCollisionSystem.brickPass, Breakout.brickScan,
      breakoutTwoBricks, modifyAt, List.enum, List.enumFrom, List.filter, List.foldl,
      List.get?, Breakout.brickOverlap, Breakout.BRICK_WIDTH, Breakout.BRICK_HEIGHT,
      Breakout.BALL_SIZE]
  rw [h]
  exact ⟨rfl, rfl⟩

/-- Claim C8 amended: in `window_pong`'s paddle loop the `break` ensures only
the first overlapping paddle in snapshot order resolves the collision — the
ball's velocity is transformed exactly once, and any further overlapping
paddles in the list are ignored. -/
theorem WindowPong.first_paddle_hit_only (sq : ℚ → ℚ) (bp pp : ℚ × ℚ)
    (rest : List (ℚ × ℚ)) (v : ℚ × ℚ) (h : check_paddle_ball_collision bp pp) :
    resolvePaddles sq bp (pp :: rest) v = paddleHitResponse sq bp pp v := by
  simp only [resolvePaddles, if_pos h]

/-- Witness for the amended C8: a ball overlapping two identical paddles is
resolved against the first one only. -/
theorem WindowPong.first_paddle_hit_only_witness :
    check_paddle_ball_collision ((55 : ℚ), (300 : ℚ)) (50, 280) ∧
    resolvePaddles (fun _ => 0) (55, 300) [(50, 280), (50, 280)] (100, 5) =
      paddleHitResponse (fun _ => 0) (55, 300) (50, 280) (100, 5) := by
  have hc : check_paddle_ball_collision ((55 : ℚ), (300 : ℚ)) (50, 280) := by
    norm_num [check_paddle_ball_collision, PADDLE_WIDTH, PADDLE_HEIGHT, BALL_SIZE]
  exact ⟨hc, first_paddle_hit_only (fun _ => 0) (55, 300) (50, 280) [(50, 280)] (100, 5) hc⟩

end Modular
